import Mathlib

/-!
Verification of the adaptive assessment and profile-adjustment engine of the
LearnMate dashboard (src/pages/Dashboard.tsx), as a shallow embedding: the
React component state becomes an explicit `DashboardState` record, and each
event handler becomes a pure state-transformer.  Asynchronous collaborator
calls (file extraction, the Gemini transport, JSON.parse) are passed in as
explicit parameters, so every definition is executable.
-/

namespace LearnMate

/-- The three learning styles.  The source keeps them as the strings of
`learningStylesArray = ['visual', 'practical', 'conceptual']` (Dashboard.tsx
line 42); we use an enumeration with the same cyclic order. -/
inductive LearningStyle where
  | visual
  | practical
  | conceptual
deriving DecidableEq, Repr, Inhabited

/-- Embeds `learningStylesArray` (Dashboard.tsx line 42). -/
def learningStylesArray : List LearningStyle :=
  [LearningStyle.visual, LearningStyle.practical, LearningStyle.conceptual]

/-- Embeds `getNextStyle` (Dashboard.tsx lines 44-48): index of the current
style, then the element at `(currentIndex + 1) % styles.length`.  The source
indexes into the array directly; it is only ever called with the non-empty
`learningStylesArray`, for which the lookup always succeeds, so the `getD`
default is never taken. -/
def getNextStyle (current : LearningStyle) (styles : List LearningStyle) : LearningStyle :=
  let currentIndex := styles.indexOf current
  let nextIndex := (currentIndex + 1) % styles.length
  styles.getD nextIndex current

/-- The `title` field of `learningStyleInfo` (Dashboard.tsx lines 84-109),
used as the `style` label of a generated study aid. -/
def styleTitle : LearningStyle → String
  | LearningStyle.visual => "Visual Learner"
  | LearningStyle.practical => "Practical Learner"
  | LearningStyle.conceptual => "Conceptual Learner"

/-- The `quizStatus` union type (Dashboard.tsx line 75):
`'waiting' | 'correct' | 'incorrect' | 'unanswered' | 'completed'`
(the `waiting` member is declared but never assigned by the handlers). -/
inductive QuizStatus where
  | waiting
  | correct
  | incorrect
  | unanswered
  | completed
deriving DecidableEq, Repr

/-- Embeds the `QuizQuestion` interface (Dashboard.tsx lines 23-30).  Option
indices are non-negative array positions, so they are modelled as `Nat`. -/
structure QuizQuestion where
  question : String
  options : List String
  correctAnswerIndex : Nat
  explanation_visual : String
  explanation_practical : String
  explanation_conceptual : String
deriving DecidableEq, Repr

/-- One `{uri, title}` source attribution (Dashboard.tsx line 19). -/
structure SourceAttribution where
  uri : String
  title : String
deriving DecidableEq, Repr

/-- Embeds the `GeneratedOutput` interface (Dashboard.tsx lines 16-20). -/
structure GeneratedOutput where
  text : String
  style : String
  sources : List SourceAttribution
deriving DecidableEq, Repr

/-- The component state of the `Dashboard` component (Dashboard.tsx lines
55-79): one field per `useState` hook that the quiz/generation handlers read
or write.  `profileConfidence` is a JS number holding an integer, modelled as
`Int` with the source's explicit `Math.min`/`Math.max` clamps. -/
structure DashboardState where
  currentLearningStyle : LearningStyle
  profileConfidence : Int
  uploadedFiles : List String
  selectedFiles : List String
  isLoading : Bool
  generatedOutput : Option GeneratedOutput
  quizQuestions : Option (List QuizQuestion)
  currentQuestionIndex : Nat
  quizStatus : QuizStatus
  userSelection : Option Nat
  incorrectCount : Nat
  isGeneratingQuiz : Bool
  quizScore : Nat
deriving DecidableEq, Repr

/-- Embeds `currentQuiz` (Dashboard.tsx line 73):
`quizQuestions ? quizQuestions[currentQuestionIndex] : null`, where an
out-of-range index yields `undefined`, i.e. `none`. -/
def currentQuiz (s : DashboardState) : Option QuizQuestion :=
  match s.quizQuestions with
  | none => none
  | some qs => qs.get? s.currentQuestionIndex

/-- Embeds `handleAnswerSubmit` (Dashboard.tsx lines 468-485).  The guard
`quizStatus !== 'unanswered' || isGeneratingQuiz || !currentQuiz` returns
early; otherwise the selection is recorded and the answer is scored against
`currentQuiz.correctAnswerIndex`.  Note that the source performs no range
check on `selectedIndex`. -/
def handleAnswerSubmit (s : DashboardState) (selectedIndex : Nat) : DashboardState :=
  if s.quizStatus ≠ QuizStatus.unanswered ∨ s.isGeneratingQuiz = true ∨ currentQuiz s = none then
    s
  else
    match currentQuiz s with
    | none => s
    | some q =>
      let s1 := { s with userSelection := some selectedIndex }
      if selectedIndex = q.correctAnswerIndex then
        { s1 with quizStatus := QuizStatus.correct,
                  incorrectCount := 0,
                  quizScore := s1.quizScore + 1,
                  profileConfidence := min 100 (s1.profileConfidence + 1) }
      else
        { s1 with quizStatus := QuizStatus.incorrect,
                  incorrectCount := s1.incorrectCount + 1 }

/-- Embeds `handleNextQuestion` (Dashboard.tsx lines 488-521).  Guard:
`if (!currentQuiz || !quizQuestions) return`.  Then (1) the end-of-quiz check
`currentQuestionIndex >= quizQuestions.length - 1` sets `completed` and
returns; (2) otherwise, if `quizStatus === 'incorrect' && incorrectCount >= 3`
the style rotates via `getNextStyle`, confidence drops by `Math.max(0, c-25)`
and the streak resets (the `localStorage` write is an external persistence
effect outside this state record); (3) the position advances and the status
and selection reset. -/
def handleNextQuestion (s : DashboardState) : DashboardState :=
  match s.quizQuestions, currentQuiz s with
  | some qs, some _ =>
    if qs.length - 1 ≤ s.currentQuestionIndex then
      { s with quizStatus := QuizStatus.completed }
    else
      let s1 :=
        if s.quizStatus = QuizStatus.incorrect ∧ 3 ≤ s.incorrectCount then
          { s with currentLearningStyle := getNextStyle s.currentLearningStyle learningStylesArray,
                   profileConfidence := max 0 (s.profileConfidence - 25),
                   incorrectCount := 0 }
        else s
      { s1 with currentQuestionIndex := s1.currentQuestionIndex + 1,
                quizStatus := QuizStatus.unanswered,
                userSelection := none }
  | _, _ => s

/-- Embeds `handleRetakeQuiz` (Dashboard.tsx lines 523-529). -/
def handleRetakeQuiz (s : DashboardState) : DashboardState :=
  { s with quizScore := 0,
           currentQuestionIndex := 0,
           quizStatus := QuizStatus.unanswered,
           incorrectCount := 0,
           userSelection := none }

/-- A concrete quiz question used by the witnesses below. -/
def qA : QuizQuestion :=
  { question := "What is 2 + 2?"
    options := ["3", "4", "5", "6"]
    correctAnswerIndex := 1
    explanation_visual := "ev"
    explanation_practical := "ep"
    explanation_conceptual := "ec" }

/-- A concrete dashboard state used by the witnesses below: a loaded
two-question session at position 0, unanswered, with the initial profile. -/
def baseState : DashboardState :=
  { currentLearningStyle := LearningStyle.visual
    profileConfidence := 85
    uploadedFiles := []
    selectedFiles := []
    isLoading := false
    generatedOutput := none
    quizQuestions := some [qA, qA]
    currentQuestionIndex := 0
    quizStatus := QuizStatus.unanswered
    userSelection := none
    incorrectCount := 0
    isGeneratingQuiz := false
    quizScore := 0 }

/-! ### Retry with exponential backoff (`fetchApiWithBackoff`) -/

/-- The message of the error thrown after all retries are exhausted
(Dashboard.tsx line 223). -/
def geminiFailureMsg : String :=
  "Failed to communicate with Gemini API after multiple retries."

/-- The observable outcome of one `fetchApiWithBackoff` run: the value
returned or error thrown, how many times the transport was invoked, and the
backoff delays (in milliseconds) awaited between invocations, in order. -/
structure BackoffResult (α : Type) where
  result : Except String α
  attempts : Nat
  delaysMs : List Nat
deriving Repr

/-- The body of the `while (attempt < maxRetries)` loop of
`fetchApiWithBackoff` (Dashboard.tsx lines 202-227).  `transport n` models the
n-th `fetch` + `response.ok` check: `Except.ok` is a 2xx response's JSON body,
`Except.error` the thrown error of a transport failure or non-success status.
The loop variable pair (attempt, maxRetries) is represented by
(`attempt`, `remaining`) with `remaining = maxRetries - attempt`, so the loop
guard `attempt < maxRetries` is the `remaining = 0` pattern and the
post-increment retry check `attempt + 1 < maxRetries` is `0 < r`.  The delay
before the retry is `Math.pow(2, attempt + 1) * 1000` milliseconds.  The
`remaining = 0` base case is the loop falling through without returning,
which the source can only reach with `maxRetries = 0` (it returns
`undefined` there); it is modelled as the exhaustion error. -/
def backoffGo {α : Type} (transport : Nat → Except String α) :
    (attempt : Nat) → (remaining : Nat) → BackoffResult α
  | _, 0 => ⟨Except.error geminiFailureMsg, 0, []⟩
  | attempt, r + 1 =>
    match transport attempt with
    | Except.ok v => ⟨Except.ok v, 1, []⟩
    | Except.error _ =>
      if 0 < r then
        let delay := 2 ^ (attempt + 1) * 1000
        let rest := backoffGo transport (attempt + 1) r
        ⟨rest.result, rest.attempts + 1, delay :: rest.delaysMs⟩
      else
        ⟨Except.error geminiFailureMsg, 1, []⟩

/-- Embeds `fetchApiWithBackoff` (Dashboard.tsx lines 202-227), starting the
loop at `attempt = 0`.  The source's default for `maxRetries` is 3. -/
def fetchApiWithBackoff {α : Type} (transport : Nat → Except String α)
    (maxRetries : Nat) : BackoffResult α :=
  backoffGo transport 0 maxRetries

/-! ### Study-aid production (`handleCreateStudyAid`) -/

/-- The parsed success value of `readFileAsText` followed by
`generateContentWithGemini` (Dashboard.tsx lines 229-275): the generated text
and the filtered source attributions. -/
structure StudyGenResult where
  text : String
  sources : List SourceAttribution
deriving DecidableEq, Repr

/-- The fallback toast description used when the thrown error has a falsy
message (Dashboard.tsx line 412). -/
def defaultGenerationErrorMsg : String :=
  "An unexpected error occurred during AI processing."

/-- Embeds `handleCreateStudyAid` (Dashboard.tsx lines 355-418).  The awaited
steps 1-2 (file reading and study-aid generation) are passed in as
`production`; the second component of the result is the description of the
destructive failure toast, `none` when no failure was surfaced.  Note the
order of effects in the source: the previous `generatedOutput` and quiz state
are cleared up front (lines 365-371), before the fallible steps run. -/
def handleCreateStudyAid (s : DashboardState) (production : Except String StudyGenResult) :
    DashboardState × Option String :=
  match s.selectedFiles with
  | [] => (s, some "Please select files first")
  | fileName :: _ =>
    let s1 := { s with isLoading := true,
                       generatedOutput := none,
                       quizQuestions := none,
                       quizScore := 0,
                       currentQuestionIndex := 0,
                       quizStatus := QuizStatus.unanswered,
                       incorrectCount := 0 }
    match production with
    | Except.ok r =>
      ({ s1 with generatedOutput := some { text := r.text,
                                           style := styleTitle s.currentLearningStyle,
                                           sources := r.sources },
                 uploadedFiles := s1.uploadedFiles ++ [fileName],
                 selectedFiles := [],
                 isLoading := false }, none)
    | Except.error msg =>
      ({ s1 with isLoading := false },
       some (if msg = "" then defaultGenerationErrorMsg else msg))

/-! ### Quiz-batch response validation (`generateQuizWithGemini`) -/

/-- A JSON value, the result of `JSON.parse` on the service's response
text. -/
inductive Json where
  | null : Json
  | bool (b : Bool) : Json
  | num (n : Int) : Json
  | str (s : String) : Json
  | arr (elems : List Json) : Json
  | obj (fields : List (String × Json)) : Json

/-- Whether a JSON value is an array (`Array.isArray`). -/
def Json.isArr : Json → Bool
  | Json.arr _ => true
  | _ => false

/-- The message of the error thrown by the validation catch block
(Dashboard.tsx line 339). -/
def malformedQuizMsg : String :=
  "Could not parse valid quiz data from AI response."

/-- Embeds the response-handling portion of `generateQuizWithGemini`
(Dashboard.tsx lines 326-340).  `jsonText` is the extracted
`result.candidates?.[0]?.content?.parts?.[0]?.text` (`none` when any step of
that chain is missing); `parse` models `JSON.parse`, with `none` for a parse
exception.  The source throws on a falsy `jsonText` (missing or the empty
string), on a parse exception, on a non-array parse result, and on an empty
array — every such throw is caught and re-thrown with `malformedQuizMsg`.  A
non-empty array is returned as-is (`parsedJson as QuizQuestion[]`, an
unchecked cast): no per-question field validation is performed. -/
def generateQuizWithGemini (jsonText : Option String) (parse : String → Option Json) :
    Except String (List Json) :=
  match jsonText with
  | none => Except.error malformedQuizMsg
  | some t =>
    if t = "" then Except.error malformedQuizMsg
    else
      match parse t with
      | none => Except.error malformedQuizMsg
      | some (Json.arr qs) =>
        if qs.isEmpty then Except.error malformedQuizMsg else Except.ok qs
      | some _ => Except.error malformedQuizMsg

/-- First field with the given key, if any. -/
def jsonField (fields : List (String × Json)) (key : String) : Option Json :=
  match fields with
  | [] => none
  | (k, v) :: rest => if k = key then some v else jsonField rest key

/-- Whether an optional JSON value is present and a string. -/
def isStringValue : Option Json → Bool
  | some (Json.str _) => true
  | _ => false

/-- Modelled from the spec: the per-question batch invariant of the data
model ("every question in a batch must carry all three explanations and
exactly four options").  The source performs no such check; this predicate
only states the property that claim C7 asserts is enforced. -/
def specQuestionInvariant (j : Json) : Bool :=
  match j with
  | Json.obj fields =>
    (match jsonField fields "options" with
     | some (Json.arr opts) => opts.length == 4
     | _ => false)
    && isStringValue (jsonField fields "explanation_visual")
    && isStringValue (jsonField fields "explanation_practical")
    && isStringValue (jsonField fields "explanation_conceptual")
  | _ => false

/-! ### Confidence events -/

/-- The two confidence mutations of the source: `correctAnswer` is the bump
`Math.min(100, prev + 1)` of `handleAnswerSubmit` (Dashboard.tsx line 478),
`styleSwitch` the penalty `Math.max(0, prev - 25)` of `handleNextQuestion`
(Dashboard.tsx line 506). -/
inductive ConfEvent where
  | correctAnswer
  | styleSwitch
deriving DecidableEq, Repr

/-- Applies one confidence event, exactly as the source's two
`setProfileConfidence` updaters do. -/
def applyConfEvent (c : Int) : ConfEvent → Int
  | ConfEvent.correctAnswer => min 100 (c + 1)
  | ConfEvent.styleSwitch => max 0 (c - 25)

/-! ### Helper lemmas -/

/-- Any fold of confidence events preserves the [0, 100] bounds. -/
theorem foldl_applyConfEvent_bounds :
    ∀ (l : List ConfEvent) (c : Int), 0 ≤ c → c ≤ 100 →
      0 ≤ l.foldl applyConfEvent c ∧ l.foldl applyConfEvent c ≤ 100
  | [], _, h0, h1 => ⟨h0, h1⟩
  | e :: l, c, h0, h1 => by
    have hstep : 0 ≤ applyConfEvent c e ∧ applyConfEvent c e ≤ 100 := by
      cases e
      · exact ⟨le_min (by norm_num) (by omega), min_le_left _ _⟩
      · exact ⟨le_max_left _ _, max_le (by norm_num) (by omega)⟩
    simpa using foldl_applyConfEvent_bounds l (applyConfEvent c e) hstep.1 hstep.2

/-! ### Claims -/

/-- C1: for every loaded quiz session whose position is not the last index of
the batch, `advance()` (handleNextQuestion) after an incorrect answer with
`consecutiveIncorrect >= 3` rotates `currentStyle` to the next style in the
cyclic order visual -> practical -> conceptual -> visual, sets confidence to
`max(0, confidence - 25)` and resets the streak to 0; after only 2
consecutive incorrect answers it changes neither style nor confidence. -/
theorem advance_styleSwitch_at_threshold (s : DashboardState)
    (qs : List QuizQuestion) (q : QuizQuestion)
    (hqs : s.quizQuestions = some qs) (hcq : currentQuiz s = some q)
    (hnotlast : s.currentQuestionIndex < qs.length - 1)
    (hinc : s.quizStatus = QuizStatus.incorrect) :
    ((3 ≤ s.incorrectCount →
      (handleNextQuestion s).currentLearningStyle
          = getNextStyle s.currentLearningStyle learningStylesArray ∧
      (handleNextQuestion s).profileConfidence = max 0 (s.profileConfidence - 25) ∧
      (handleNextQuestion s).incorrectCount = 0) ∧
     (s.incorrectCount = 2 →
      (handleNextQuestion s).currentLearningStyle = s.currentLearningStyle ∧
      (handleNextQuestion s).profileConfidence = s.profileConfidence)) ∧
    (getNextStyle LearningStyle.visual learningStylesArray = LearningStyle.practical ∧
     getNextStyle LearningStyle.practical learningStylesArray = LearningStyle.conceptual ∧
     getNextStyle LearningStyle.conceptual learningStylesArray = LearningStyle.visual) := by
  have hne : ¬ (qs.length - 1 ≤ s.currentQuestionIndex) := Nat.not_le.mpr hnotlast
  refine ⟨⟨?_, ?_⟩, by decide⟩
  · intro h3
    simp [handleNextQuestion, hqs, hcq, hne, hinc, h3]
  · intro h2
    simp [handleNextQuestion, hqs, hcq, hne, hinc, h2]

/-- A session mid-batch with an active three-miss streak, for the C1
witness. -/
def streak3State : DashboardState :=
  { baseState with quizStatus := QuizStatus.incorrect, incorrectCount := 3 }

/-- A session mid-batch with a two-miss streak, for the C1 witness. -/
def streak2State : DashboardState :=
  { baseState with quizStatus := QuizStatus.incorrect, incorrectCount := 2 }

/-- Witness for C1 at concrete sessions: with a three-miss streak the style
rotates, the confidence drops by 25 and the streak resets; with a two-miss
streak style and confidence are untouched. -/
theorem advance_styleSwitch_at_threshold_witness :
    ((handleNextQuestion streak3State).currentLearningStyle
        = getNextStyle streak3State.currentLearningStyle learningStylesArray ∧
     (handleNextQuestion streak3State).profileConfidence
        = max 0 (streak3State.profileConfidence - 25) ∧
     (handleNextQuestion streak3State).incorrectCount = 0) ∧
    ((handleNextQuestion streak2State).currentLearningStyle
        = streak2State.currentLearningStyle ∧
     (handleNextQuestion streak2State).profileConfidence
        = streak2State.profileConfidence) := by
  refine ⟨(advance_styleSwitch_at_threshold streak3State [qA, qA] qA rfl rfl
            (by decide) rfl).1.1 (by decide),
          (advance_styleSwitch_at_threshold streak2State [qA, qA] qA rfl rfl
            (by decide) rfl).1.2 rfl⟩

/-- C2: starting from the initial confidence 85, every sequence of
correct-answer events (`min(100, c + 1)`) and style-switch events
(`max(0, c - 25)`) keeps confidence an integer within [0, 100] after every
step (every such sequence, in particular every prefix of a longer run, folds
to a value in range); repeated bumps saturate at 100 and repeated penalties
saturate at 0. -/
theorem confidence_invariant :
    (∀ l : List ConfEvent,
      0 ≤ l.foldl applyConfEvent 85 ∧ l.foldl applyConfEvent 85 ≤ 100) ∧
    (∀ n : Nat, (List.replicate n ConfEvent.correctAnswer).foldl applyConfEvent 100 = 100) ∧
    (∀ n : Nat, (List.replicate n ConfEvent.styleSwitch).foldl applyConfEvent 0 = 0) := by
  refine ⟨fun l => foldl_applyConfEvent_bounds l 85 (by norm_num) (by norm_num), ?_, ?_⟩
  · intro n
    induction n with
    | zero => rfl
    | succ n ih => simpa [List.replicate_succ, applyConfEvent] using ih
  · intro n
    induction n with
    | zero => rfl
    | succ n ih => simpa [List.replicate_succ, applyConfEvent] using ih

/-- C3: on an unanswered question (with no generation in progress),
submitting the correct index sets status Correct, increments the score,
resets the streak to 0 and bumps confidence to `min(100, c + 1)`; submitting
any other index sets status Incorrect, increments the streak and leaves
confidence (and score) unchanged. -/
theorem submitAnswer_scoring (s : DashboardState) (q : QuizQuestion) (i : Nat)
    (hcq : currentQuiz s = some q) (hstat : s.quizStatus = QuizStatus.unanswered)
    (hgen : s.isGeneratingQuiz = false) :
    (i = q.correctAnswerIndex →
      handleAnswerSubmit s i
        = { s with userSelection := some i,
                   quizStatus := QuizStatus.correct,
                   incorrectCount := 0,
                   quizScore := s.quizScore + 1,
                   profileConfidence := min 100 (s.profileConfidence + 1) }) ∧
    (i ≠ q.correctAnswerIndex →
      handleAnswerSubmit s i
        = { s with userSelection := some i,
                   quizStatus := QuizStatus.incorrect,
                   incorrectCount := s.incorrectCount + 1 }) := by
  constructor
  · intro h
    simp [handleAnswerSubmit, hcq, hstat, hgen, h]
  · intro h
    simp [handleAnswerSubmit, hcq, hstat, hgen, h]

/-- Witness for C3 at the concrete base session (correct index 1): a correct
and an incorrect submission. -/
theorem submitAnswer_scoring_witness :
    handleAnswerSubmit baseState 1
      = { baseState with userSelection := some 1,
                         quizStatus := QuizStatus.correct,
                         incorrectCount := 0,
                         quizScore := baseState.quizScore + 1,
                         profileConfidence := min 100 (baseState.profileConfidence + 1) } ∧
    handleAnswerSubmit baseState 0
      = { baseState with userSelection := some 0,
                         quizStatus := QuizStatus.incorrect,
                         incorrectCount := baseState.incorrectCount + 1 } := by
  refine ⟨(submitAnswer_scoring baseState qA 1 rfl rfl rfl).1 rfl,
          (submitAnswer_scoring baseState qA 0 rfl rfl rfl).2 (by decide)⟩

/-- The early-return guard of `handleAnswerSubmit`: whenever the status is
not `unanswered`, quiz generation is in progress, or there is no current
question, the submission leaves the state unchanged. -/
theorem handleAnswerSubmit_noop (s : DashboardState) (i : Nat)
    (h : s.quizStatus ≠ QuizStatus.unanswered ∨ s.isGeneratingQuiz = true ∨
         currentQuiz s = none) :
    handleAnswerSubmit s i = s := by
  simp only [handleAnswerSubmit]
  rw [if_pos h]

/-- C4 counterexample: submitting the out-of-range index 5 on an unanswered
question with four options is not rejected — the engine state changes, the
submission being recorded as an incorrect answer. -/
theorem submitAnswer_out_of_range_not_rejected :
    handleAnswerSubmit baseState 5 ≠ baseState ∧
    (handleAnswerSubmit baseState 5).quizStatus = QuizStatus.incorrect ∧
    (handleAnswerSubmit baseState 5).incorrectCount = baseState.incorrectCount + 1 := by
  decide

/-- C4 (amended): submitAnswer is rejected as a no-op, leaving the entire
engine state unchanged, whenever the current status is not Unanswered — in
particular a second submission on the same question before advance() is
rejected — or quiz generation is in progress, or there is no current
question.  An index outside [0, 3] is not rejected: it is recorded as an
incorrect answer. -/
theorem submitAnswer_rejection (s : DashboardState) :
    (∀ i, s.quizStatus ≠ QuizStatus.unanswered → handleAnswerSubmit s i = s) ∧
    (∀ i, s.isGeneratingQuiz = true → handleAnswerSubmit s i = s) ∧
    (∀ i, currentQuiz s = none → handleAnswerSubmit s i = s) ∧
    (∀ q i j, currentQuiz s = some q → s.quizStatus = QuizStatus.unanswered →
      s.isGeneratingQuiz = false →
      handleAnswerSubmit (handleAnswerSubmit s i) j = handleAnswerSubmit s i) := by
  refine ⟨fun i h => handleAnswerSubmit_noop s i (Or.inl h),
          fun i h => handleAnswerSubmit_noop s i (Or.inr (Or.inl h)),
          fun i h => handleAnswerSubmit_noop s i (Or.inr (Or.inr h)),
          ?_⟩
  intro q i j hcq hstat hgen
  refine handleAnswerSubmit_noop _ j (Or.inl ?_)
  by_cases h : i = q.correctAnswerIndex
  · simp [handleAnswerSubmit, hcq, hstat, hgen, h]
  · simp [handleAnswerSubmit, hcq, hstat, hgen, h]

/-- Witness for C4 (amended) at concrete states: rejection under each guard,
and a second submission after a recorded answer leaving the state as after
the first. -/
theorem submitAnswer_rejection_witness :
    handleAnswerSubmit { baseState with quizStatus := QuizStatus.correct } 1
      = { baseState with quizStatus := QuizStatus.correct } ∧
    handleAnswerSubmit { baseState with isGeneratingQuiz := true } 1
      = { baseState with isGeneratingQuiz := true } ∧
    handleAnswerSubmit { baseState with quizQuestions := none } 1
      = { baseState with quizQuestions := none } ∧
    handleAnswerSubmit (handleAnswerSubmit baseState 0) 1 = handleAnswerSubmit baseState 0 := by
  refine ⟨(submitAnswer_rejection _).1 1 (by decide),
          (submitAnswer_rejection _).2.1 1 rfl,
          (submitAnswer_rejection _).2.2.1 1 rfl,
          (submitAnswer_rejection baseState).2.2.2 qA 0 1 rfl rfl rfl⟩

/-- The artifact held before a failing production run, for the C5
counterexample. -/
def previousAid : GeneratedOutput :=
  { text := "old aid", style := "Visual Learner", sources := [] }

/-- A dashboard state holding `previousAid` with one selected file, for the
C5 counterexample and witness. -/
def aidHolderState : DashboardState :=
  { baseState with generatedOutput := some previousAid, selectedFiles := ["notes.txt"] }

/-- C5 counterexample: a production run that fails at the generation step
does not leave the previously held study-aid artifact observable — the
artifact it held before the run is gone afterwards (cleared to none at the
start of the run). -/
theorem studyAid_failure_clears_previous :
    aidHolderState.generatedOutput = some previousAid ∧
    (handleCreateStudyAid aidHolderState (Except.error "network down")).1.generatedOutput
      ≠ aidHolderState.generatedOutput := by
  decide

/-- C5 (amended): a production run that fails at file reading/extraction or
generation surfaces the failure message to the caller (as the destructive
toast description, with a fixed fallback only when the message is empty) and
records no new artifact — the failure is not silently replaced by a default —
but the previously held artifact, if any, is cleared at the start of the run
rather than left unchanged, so after the failure no artifact is held.
Profile state and the uploaded-file list are untouched. -/
theorem studyAid_failure_surfaced (s : DashboardState) (msg : String)
    (f : String) (rest : List String) (hsel : s.selectedFiles = f :: rest) :
    (handleCreateStudyAid s (Except.error msg)).1.generatedOutput = none ∧
    (handleCreateStudyAid s (Except.error msg)).1.quizQuestions = none ∧
    (handleCreateStudyAid s (Except.error msg)).1.uploadedFiles = s.uploadedFiles ∧
    (handleCreateStudyAid s (Except.error msg)).1.currentLearningStyle
      = s.currentLearningStyle ∧
    (handleCreateStudyAid s (Except.error msg)).1.profileConfidence = s.profileConfidence ∧
    (handleCreateStudyAid s (Except.error msg)).2
      = some (if msg = "" then defaultGenerationErrorMsg else msg) := by
  simp [handleCreateStudyAid, hsel]

/-- Witness for C5 (amended) at the concrete artifact-holding state. -/
theorem studyAid_failure_surfaced_witness :
    (handleCreateStudyAid aidHolderState (Except.error "network down")).1.generatedOutput
      = none ∧
    (handleCreateStudyAid aidHolderState (Except.error "network down")).2
      = some "network down" := by
  have h := studyAid_failure_surfaced aidHolderState "network down" "notes.txt" [] rfl
  exact ⟨h.1, by simpa using h.2.2.2.2.2⟩

/-- C6: with every transport attempt failing, `fetchApiWithBackoff` at the
source's cap of 3 makes exactly 3 attempts, waits 2000 ms before the 2nd and
4000 ms before the 3rd, and then fails with the fixed retries-exhausted
error, distinct from every per-attempt transport error. -/
theorem backoff_retry_cap {α : Type} (transport : Nat → Except String α)
    (msg : Nat → String)
    (hfail : ∀ n, transport n = Except.error (msg n))
    (hdistinct : ∀ n, msg n ≠ geminiFailureMsg) :
    (fetchApiWithBackoff transport 3).attempts = 3 ∧
    (fetchApiWithBackoff transport 3).delaysMs = [2000, 4000] ∧
    (fetchApiWithBackoff transport 3).result = Except.error geminiFailureMsg ∧
    ∀ n, (fetchApiWithBackoff transport 3).result ≠ Except.error (msg n) := by
  refine ⟨by simp [fetchApiWithBackoff, backoffGo, hfail],
          by simp [fetchApiWithBackoff, backoffGo, hfail],
          by simp [fetchApiWithBackoff, backoffGo, hfail],
          ?_⟩
  intro n
  simp only [fetchApiWithBackoff]
  simp [backoffGo, hfail]
  exact fun h => hdistinct n h.symm

/-- Witness for C6 with a concrete always-failing transport. -/
theorem backoff_retry_cap_witness :
    (fetchApiWithBackoff
        (fun _ => (Except.error "API call failed with status: 500" : Except String Unit))
        3).attempts = 3 ∧
    (fetchApiWithBackoff
        (fun _ => (Except.error "API call failed with status: 500" : Except String Unit))
        3).delaysMs = [2000, 4000] ∧
    (fetchApiWithBackoff
        (fun _ => (Except.error "API call failed with status: 500" : Except String Unit))
        3).result = Except.error geminiFailureMsg := by
  have hd : ∀ n : Nat,
      (fun _ : Nat => "API call failed with status: 500") n ≠ geminiFailureMsg :=
    fun _ => by
      show "API call failed with status: 500" ≠ geminiFailureMsg
      decide
  have h := backoff_retry_cap
      (fun _ => (Except.error "API call failed with status: 500" : Except String Unit))
      (fun _ : Nat => "API call failed with status: 500")
      (fun _ => rfl) hd
  exact ⟨h.1, h.2.1, h.2.2.1⟩

/-- A parsed question object with only three options and no per-style
explanations, for the C7 counterexample. -/
def deficientQuestionJson : Json :=
  Json.obj [("question", Json.str "Which?"),
            ("options", Json.arr [Json.str "a", Json.str "b", Json.str "c"]),
            ("correctAnswerIndex", Json.num 0)]

/-- C7 counterexample: a response parsing to a non-empty array whose only
question has three options and no per-style explanations is accepted in full
by the validation of `generateQuizWithGemini` — the batch is not rejected. -/
theorem quizBatch_deficient_question_accepted :
    generateQuizWithGemini (some "response") (fun _ => some (Json.arr [deficientQuestionJson]))
      = Except.ok [deficientQuestionJson] ∧
    specQuestionInvariant deficientQuestionJson = false :=
  ⟨rfl, rfl⟩

/-- C7 (amended): generateQuizBatch fails with the malformed-response error
when the response text is missing or empty, when it is not parseable, when
the parse result is not a sequence, or when the sequence is empty; but no
per-question validation is performed — every non-empty parsed array is
returned in full, even when a question lacks exactly four options or a
per-style explanation. -/
theorem quizBatch_validation (parse : String → Option Json) :
    (generateQuizWithGemini none parse = Except.error malformedQuizMsg) ∧
    (generateQuizWithGemini (some "") parse = Except.error malformedQuizMsg) ∧
    (∀ t, parse t = none →
      generateQuizWithGemini (some t) parse = Except.error malformedQuizMsg) ∧
    (∀ t j, parse t = some j → Json.isArr j = false →
      generateQuizWithGemini (some t) parse = Except.error malformedQuizMsg) ∧
    (∀ t, parse t = some (Json.arr []) →
      generateQuizWithGemini (some t) parse = Except.error malformedQuizMsg) ∧
    (∀ t qs, t ≠ "" → parse t = some (Json.arr qs) → qs ≠ [] →
      generateQuizWithGemini (some t) parse = Except.ok qs) := by
  refine ⟨rfl, rfl, ?_, ?_, ?_, ?_⟩
  · intro t hp
    by_cases ht : t = "" <;> simp [generateQuizWithGemini, ht, hp]
  · intro t j hp hna
    by_cases ht : t = ""
    · simp [generateQuizWithGemini, ht]
    · cases j <;> simp_all [generateQuizWithGemini, Json.isArr, ht, hp]
  · intro t hp
    by_cases ht : t = "" <;> simp [generateQuizWithGemini, ht, hp]
  · intro t qs ht hp hne
    cases qs with
    | nil => exact absurd rfl hne
    | cons a as => simp [generateQuizWithGemini, ht, hp]

/-- Witness for C7 (amended) at a concrete parse function: the four failure
shapes are rejected and a non-empty array is returned in full. -/
theorem quizBatch_validation_witness :
    (generateQuizWithGemini none (fun _ => some (Json.arr [Json.null]))
      = Except.error malformedQuizMsg) ∧
    (generateQuizWithGemini (some "") (fun _ => some (Json.arr [Json.null]))
      = Except.error malformedQuizMsg) ∧
    (generateQuizWithGemini (some "oops") (fun _ => (none : Option Json))
      = Except.error malformedQuizMsg) ∧
    (generateQuizWithGemini (some "notarray") (fun _ => some (Json.str "x"))
      = Except.error malformedQuizMsg) ∧
    (generateQuizWithGemini (some "emptyarray") (fun _ => some (Json.arr []))
      = Except.error malformedQuizMsg) ∧
    (generateQuizWithGemini (some "goodtext") (fun _ => some (Json.arr [Json.null]))
      = Except.ok [Json.null]) := by
  refine ⟨(quizBatch_validation _).1,
          (quizBatch_validation _).2.1,
          (quizBatch_validation _).2.2.1 "oops" rfl,
          (quizBatch_validation _).2.2.2.1 "notarray" (Json.str "x") rfl rfl,
          (quizBatch_validation _).2.2.2.2.1 "emptyarray" rfl,
          (quizBatch_validation _).2.2.2.2.2 "goodtext" [Json.null] (by decide) rfl
            (List.cons_ne_nil _ _)⟩

/-- C8 counterexample: with a loaded session mid-batch and status still
Unanswered, `advance()` (handleNextQuestion) is not rejected — the state
changes (the position advances). -/
theorem advance_unanswered_not_rejected :
    baseState.quizStatus = QuizStatus.unanswered ∧
    handleNextQuestion baseState ≠ baseState ∧
    (handleNextQuestion baseState).currentQuestionIndex
      = baseState.currentQuestionIndex + 1 := by
  decide

/-- C8 (amended): advance() is a no-op, changing no state, whenever no quiz
session is loaded or the current index has no question; it does not itself
reject calls while the status is Unanswered — that guard lives in the UI,
which renders the Next button only after an answer is recorded — so such a
call advances normally. -/
theorem advance_no_session_noop (s : DashboardState) :
    (s.quizQuestions = none → handleNextQuestion s = s) ∧
    (currentQuiz s = none → handleNextQuestion s = s) := by
  constructor
  · intro h
    simp [handleNextQuestion, h]
  · intro h
    cases hq : s.quizQuestions with
    | none => simp [handleNextQuestion, hq]
    | some qs => simp [handleNextQuestion, hq, h]

/-- A state with no quiz session loaded, for the C8 witness. -/
def noBatchState : DashboardState := { baseState with quizQuestions := none }

/-- A state whose loaded batch has no question at the current index, for the
C8 witness. -/
def emptyBatchState : DashboardState := { baseState with quizQuestions := some [] }

/-- Witness for C8 (amended) at concrete states: no loaded session, and a
session with no question at the current position. -/
theorem advance_no_session_noop_witness :
    handleNextQuestion noBatchState = noBatchState ∧
    handleNextQuestion emptyBatchState = emptyBatchState :=
  ⟨(advance_no_session_noop noBatchState).1 rfl,
   (advance_no_session_noop emptyBatchState).2 rfl⟩

/-- C9: retake() resets score, position, streak, status and selection to
their initial values (0, 0, 0, Unanswered, none) while keeping the same
batch, and leaves the profile (current style and confidence) unchanged. -/
theorem retake_resets (s : DashboardState) :
    handleRetakeQuiz s
      = { s with quizScore := 0,
                 currentQuestionIndex := 0,
                 quizStatus := QuizStatus.unanswered,
                 incorrectCount := 0,
                 userSelection := none } ∧
    (handleRetakeQuiz s).quizQuestions = s.quizQuestions ∧
    (handleRetakeQuiz s).currentLearningStyle = s.currentLearningStyle ∧
    (handleRetakeQuiz s).profileConfidence = s.profileConfidence :=
  ⟨rfl, rfl, rfl, rfl⟩

/-- C10: when the final question of the batch was answered incorrectly with a
streak of 3 or more, advance() sets status to Completed and returns before
the style-switch rule is evaluated: style and confidence are unchanged and
the streak is not reset. -/
theorem advance_last_question_completes (s : DashboardState)
    (qs : List QuizQuestion) (q : QuizQuestion)
    (hqs : s.quizQuestions = some qs) (hcq : currentQuiz s = some q)
    (hlast : qs.length - 1 ≤ s.currentQuestionIndex)
    (_hinc : s.quizStatus = QuizStatus.incorrect) (_h3 : 3 ≤ s.incorrectCount) :
    handleNextQuestion s = { s with quizStatus := QuizStatus.completed } ∧
    (handleNextQuestion s).currentLearningStyle = s.currentLearningStyle ∧
    (handleNextQuestion s).profileConfidence = s.profileConfidence ∧
    (handleNextQuestion s).incorrectCount = s.incorrectCount := by
  have h1 : handleNextQuestion s = { s with quizStatus := QuizStatus.completed } := by
    simp [handleNextQuestion, hqs, hcq, hlast]
  exact ⟨h1, by rw [h1], by rw [h1], by rw [h1]⟩

/-- The base session on its last question with an active three-miss streak,
for the C10 witness. -/
def lastStreakState : DashboardState :=
  { baseState with currentQuestionIndex := 1,
                   quizStatus := QuizStatus.incorrect,
                   incorrectCount := 3 }

/-- Witness for C10 at a concrete session on its last question. -/
theorem advance_last_question_completes_witness :
    handleNextQuestion lastStreakState
      = { lastStreakState with quizStatus := QuizStatus.completed } :=
  (advance_last_question_completes lastStreakState [qA, qA] qA rfl rfl
    (by decide) rfl (by decide)).1

end LearnMate
